import Mathlib

/-!
Shallow embedding of the GlowCheck app core, checked against its
natural-language specification.

The embedding covers:
* `src/lib/subscription-service.ts` — subscription / trial entitlement store
  (`getSubscriptionStatus`, `startFreeTrial`, `subscribeToPlan`,
  `cancelSubscription`), with the key-value persistence capability modelled as
  an explicit `Store` record threaded through the operations, the billing
  simulation (`simulateSubscriptionAPI`) modelled as a boolean outcome, and JS
  `Date` arithmetic modelled through an abstract `DateOps` record.
* the network service (`NetworkService.makeRequest`, `isRetryableError`,
  `uploadFile`/`post` header assembly) — the retry loop is modelled as a pure
  recursion over the sequence of per-attempt fetch outcomes, producing a trace
  of attempts made, the delay slept after each failed non-final attempt, and
  the propagated error (if any).
* the AI service (`parseGlowAnalysis`, `getMockGlowAnalysis`,
  `parseOutfitAnalysis`, `getMockOutfitAnalysis`, `parseCoachingPlan`,
  `getMockCoachingPlan`) — the AI completion is modelled as an already-decoded
  `Option` of a record of optional fields (`none` = `JSON.parse` threw);
  `Math.random()` draws are modelled as explicit parameters reduced modulo the
  range the source multiplies them into.
-/

namespace GlowCheck

/-! ### Subscription service data model (src/lib/subscription-service.ts) -/

inductive PlanDuration where
  | monthly
  | yearly
deriving DecidableEq

structure SubscriptionPlan where
  id : String
  name : String
  price : ℚ
  currency : String
  duration : PlanDuration
  features : List String
  trialDays : Option Nat
deriving DecidableEq

/-- The `premium_monthly` catalog entry. -/
def premiumMonthly : SubscriptionPlan :=
  { id := "premium_monthly"
    name := "Premium Monthly"
    price := 9.99
    currency := "USD"
    duration := PlanDuration.monthly
    trialDays := some 7
    features :=
      [ "Personalized AI Plans"
      , "Advanced Analysis"
      , "Unlimited Access"
      , "Premium Features"
      , "Priority Support" ] }

/-- The `premium_yearly` catalog entry. -/
def premiumYearly : SubscriptionPlan :=
  { id := "premium_yearly"
    name := "Premium Yearly"
    price := 99.99
    currency := "USD"
    duration := PlanDuration.yearly
    trialDays := some 7
    features :=
      [ "Personalized AI Plans"
      , "Advanced Analysis"
      , "Unlimited Access"
      , "Premium Features"
      , "Priority Support"
      , "2 months free" ] }

/-- The static, compiled-in plan catalog (`SubscriptionService.plans`). -/
def plans : List SubscriptionPlan := [premiumMonthly, premiumYearly]

/-- JS `Date` values are modelled as integer timestamps; the calendar
arithmetic the source performs through `setDate` / `setMonth` /
`setFullYear` is modelled as an abstract record of operations on
timestamps (the JS `Date` library is an external collaborator). -/
structure DateOps where
  addDays : Nat → Int → Int
  addMonth : Int → Int
  addYear : Int → Int

/-- A concrete instantiation of `DateOps` used by witnesses. -/
def fixedDateOps : DateOps :=
  { addDays := fun d t => t + (d : Int) * 86400000
    addMonth := fun t => t + 30 * 86400000
    addYear := fun t => t + 365 * 86400000 }

/-- The record persisted under `subscription_status` (JSON round-trip of a
`SubscriptionStatus` written by `subscribeToPlan`; an arbitrary persisted
record may carry any field values). -/
structure StoredSubscription where
  isActive : Bool
  plan : Option SubscriptionPlan
  expiresAt : Option Int
deriving DecidableEq

/-- The record persisted under `trial_status`. -/
structure StoredTrial where
  planId : String
  startedAt : Int
  expiresAt : Int
  used : Bool
deriving DecidableEq

/-- The key-value persistence capability, restricted to the two keys the
subscription service uses. -/
structure Store where
  sub : Option StoredSubscription
  trial : Option StoredTrial
deriving DecidableEq

/-- The value `getSubscriptionStatus` returns. -/
structure SubscriptionStatus where
  isActive : Bool
  plan : Option SubscriptionPlan
  expiresAt : Option Int
  isTrialActive : Option Bool
  trialExpiresAt : Option Int
deriving DecidableEq

/-- `SubscriptionService.getSubscriptionStatus`: read the two persisted
records and derive the returned status at time `now`. -/
def getSubscriptionStatus (st : Store) (now : Int) : SubscriptionStatus :=
  let s0 : SubscriptionStatus :=
    match st.sub with
    | none =>
        { isActive := false, plan := none, expiresAt := none
          isTrialActive := none, trialExpiresAt := none }
    | some r0 =>
        { isActive := r0.isActive, plan := r0.plan, expiresAt := r0.expiresAt
          isTrialActive := none, trialExpiresAt := none }
  let s1 : SubscriptionStatus :=
    match st.trial with
    | none => s0
    | some t =>
        let ta : Bool := decide (now < t.expiresAt)
        let s := { s0 with isTrialActive := some ta, trialExpiresAt := some t.expiresAt }
        if ta && !s.isActive then { s with isActive := true } else s
  match s1.expiresAt with
  | some e => if e ≤ now then { s1 with isActive := false } else s1
  | none => s1

/-- The `{ success, error? }` result returned by the subscription
operations. -/
structure OpResult where
  success : Bool
  error : Option String
deriving DecidableEq

/-- Error message returned when the free trial was already used. -/
def alreadyUsedError : String :=
  "Free trial has already been used. Please subscribe to continue using premium features."

/-- `SubscriptionService.startFreeTrial`. `apiOk = false` models
`simulateSubscriptionAPI` throwing; the result pairs the returned value with
the persistence state after the call. -/
def startFreeTrial (D : DateOps) (st : Store) (now : Int) (apiOk : Bool)
    (planId : String) : OpResult × Store :=
  let usedAlready : Bool :=
    match st.trial with
    | some t => t.used
    | none => false
  if usedAlready then
    ({ success := false, error := some alreadyUsedError }, st)
  else
    match plans.find? (fun p => p.id == planId) with
    | none => ({ success := false, error := some "Trial not available for this plan." }, st)
    | some p =>
        match p.trialDays with
        | none => ({ success := false, error := some "Trial not available for this plan." }, st)
        | some d =>
            if d == 0 then
              ({ success := false, error := some "Trial not available for this plan." }, st)
            else if apiOk then
              let newTrial : StoredTrial :=
                { planId := planId, startedAt := now
                  expiresAt := D.addDays d now, used := true }
              ({ success := true, error := none }, { st with trial := some newTrial })
            else
              ({ success := false, error := some "Failed to start free trial. Please try again." }, st)

/-- `SubscriptionService.subscribeToPlan`. -/
def subscribeToPlan (D : DateOps) (st : Store) (now : Int) (apiOk : Bool)
    (planId : String) : OpResult × Store :=
  match plans.find? (fun p => p.id == planId) with
  | none => ({ success := false, error := some "Plan not found." }, st)
  | some p =>
      if apiOk then
        let e : Int :=
          match p.duration with
          | PlanDuration.monthly => D.addMonth now
          | PlanDuration.yearly => D.addYear now
        let newSub : StoredSubscription :=
          { isActive := true, plan := some p, expiresAt := some e }
        ({ success := true, error := none }, { st with sub := some newSub })
      else
        ({ success := false, error := some "Subscription failed. Please try again." }, st)

/-- `SubscriptionService.cancelSubscription`: removes only the
`subscription_status` record. -/
def cancelSubscription (st : Store) (apiOk : Bool) : OpResult × Store :=
  if apiOk then
    ({ success := true, error := none }, { st with sub := none })
  else
    ({ success := false, error := some "Failed to cancel subscription. Please try again." }, st)

/-! ### Characterization helpers for the entitlement read -/

/-- The `isActive` flag stored in the persisted paid record (false when no
record is stored). -/
def storedActiveFlag (st : Store) : Bool :=
  match st.sub with
  | some r0 => r0.isActive
  | none => false

/-- Whether the persisted trial record's expiry is strictly in the future. -/
def trialIsActive (st : Store) (now : Int) : Bool :=
  match st.trial with
  | some t => decide (now < t.expiresAt)
  | none => false

/-- Whether the persisted paid record has an `expiresAt` that is set and not
in the future. -/
def paidExpired (st : Store) (now : Int) : Bool :=
  match st.sub with
  | some r0 =>
      match r0.expiresAt with
      | some e => decide (e ≤ now)
      | none => false
  | none => false

/-! ### Network service (NetworkService in the network module) -/

/-- The observable outcome of one `fetch` attempt: a successful (`ok`)
response, a response with an HTTP error status, or a thrown error
(`AbortError` when the per-attempt timeout fired, otherwise a connection
level failure). -/
inductive FetchOutcome where
  | success
  | httpError (status : Nat) (statusText : String)
  | fetchFailure (timedOut : Bool)
deriving DecidableEq

/-- The classified `NetworkError` built by `createError`. -/
structure NetworkErrorModel where
  status : Option Nat
  code : Option String
  isRetryable : Bool
deriving DecidableEq

/-- `NetworkService.isRetryableError`. `none` models an `undefined`
argument; a status of `0` is falsy in JS and hence also hits the
`!status` branch. -/
def isRetryableError (status : Option Nat) (code : Option String) : Bool :=
  match status with
  | none => true
  | some s =>
      if s == 0 then true
      else if 500 ≤ s then true
      else if s == 408 || s == 429 then true
      else code == some "NETWORK_ERROR" || code == some "TIMEOUT"

/-- `NetworkService.createError` (message text omitted; only the classified
fields matter to the claims). -/
def createError (status : Option Nat) (code : Option String) : NetworkErrorModel :=
  { status := status, code := code, isRetryable := isRetryableError status code }

/-- The error built by the loop's `catch` clause for an attempt. A thrown
fetch failure carries code `TIMEOUT` exactly when it was an `AbortError`.
An HTTP error object thrown by the `!response.ok` branch is an `Error`
whose `name` is `Error` (not `AbortError`), so the catch rebuilds it with
`status: undefined` and code `NETWORK_ERROR` — the HTTP status is lost. -/
def caughtError (o : FetchOutcome) : NetworkErrorModel :=
  match o with
  | FetchOutcome.fetchFailure timedOut =>
      createError none (some (if timedOut then "TIMEOUT" else "NETWORK_ERROR"))
  | _ => createError none (some "NETWORK_ERROR")

/-- Trace of one `makeRequest` call: how many attempts ran, the delay slept
after each failed non-final attempt, and the propagated error (`none` when a
response was returned). -/
structure RequestTrace where
  attemptsMade : Nat
  delays : List Nat
  result : Option NetworkErrorModel
deriving DecidableEq

/-- The body of `NetworkService.makeRequest`'s retry loop. `f n` is the
outcome of attempt `n`; `remaining` is `retries - attempt`, so `remaining =
0` models the `attempt === retries` check on the final allowed attempt.

The `!response.ok` branch lives INSIDE the `try`, so its `throw error`
(taken when the status-classified error is non-retryable, or on the final
attempt) is caught by the loop's own `catch`, which rebuilds the error as
`caughtError` — `status: undefined`, code `NETWORK_ERROR` — and classifies
it retryable via the `!status` branch of `isRetryableError`. The catch then
retries unless `attempt === retries`. Hence a fatal 4xx is retried like any
other failure, and the error that finally propagates is the status-less
reclassified one. Retry sleeps are `retryDelay * 2 ^ attempt` in both the
try path and the catch path. -/
def makeRequestGo (f : Nat → FetchOutcome) (retryDelay : Nat) :
    Nat → Nat → RequestTrace
  | 0, attempt =>
      match f attempt with
      | FetchOutcome.success => { attemptsMade := 1, delays := [], result := none }
      | o =>
          { attemptsMade := 1, delays := [], result := some (caughtError o) }
  | m + 1, attempt =>
      match f attempt with
      | FetchOutcome.success => { attemptsMade := 1, delays := [], result := none }
      | FetchOutcome.httpError s text =>
          let err := createError (some s) none
          if err.isRetryable then
            let rest := makeRequestGo f retryDelay m (attempt + 1)
            { attemptsMade := rest.attemptsMade + 1
              delays := retryDelay * 2 ^ attempt :: rest.delays
              result := rest.result }
          else
            let err2 := caughtError (FetchOutcome.httpError s text)
            if err2.isRetryable then
              let rest := makeRequestGo f retryDelay m (attempt + 1)
              { attemptsMade := rest.attemptsMade + 1
                delays := retryDelay * 2 ^ attempt :: rest.delays
                result := rest.result }
            else
              { attemptsMade := 1, delays := [], result := some err2 }
      | FetchOutcome.fetchFailure timedOut =>
          let err2 := caughtError (FetchOutcome.fetchFailure timedOut)
          if err2.isRetryable then
            let rest := makeRequestGo f retryDelay m (attempt + 1)
            { attemptsMade := rest.attemptsMade + 1
              delays := retryDelay * 2 ^ attempt :: rest.delays
              result := rest.result }
          else
            { attemptsMade := 1, delays := [], result := some err2 }

/-- `NetworkService.makeRequest` with retry budget `retries` and base delay
`retryDelay`, run against the attempt outcomes `f`. -/
def makeRequest (f : Nat → FetchOutcome) (retries retryDelay : Nat) : RequestTrace :=
  makeRequestGo f retryDelay retries 0

/-- An attempt outcome that is an HTTP response with status `≥ 500`. -/
def isServerError (o : FetchOutcome) : Prop :=
  ∃ s text, 500 ≤ s ∧ o = FetchOutcome.httpError s text

/-! ### Header assembly for uploads -/

/-- JS object spread `{...base, ...extra}` on string-keyed header maps:
keys of `extra` override those of `base`. -/
def mergeHeaders (base extra : List (String × String)) :
    List (String × String) :=
  base.map (fun p =>
    match extra.find? (fun q => q.1 == p.1) with
    | some q => q
    | none => p)
  ++ extra.filter (fun q => !(base.any (fun p => p.1 == q.1)))

/-- Lookup of a header value by key. -/
def lookupHeader (hs : List (String × String)) (k : String) : Option String :=
  (hs.find? (fun p => p.1 == k)).map Prod.snd

/-- `NetworkService.baseHeaders`; the `User-Agent` value is assembled from
injected `CONFIG.APP` constants, kept abstract here. -/
def baseHeaders (ua : String) : List (String × String) :=
  [("Content-Type", "application/json"), ("User-Agent", ua)]

/-- The effective request headers `makeRequest` sends:
`{...this.baseHeaders, ...headers}` where `headers` comes from the request
config. -/
def requestHeaders (ua : String) (configHeaders : List (String × String)) :
    List (String × String) :=
  mergeHeaders (baseHeaders ua) configHeaders

/-- The headers of the request `uploadFile` issues: it forwards
`{ ...config?.headers }` as the config headers, which `makeRequest` then
merges over `baseHeaders`. -/
def uploadFileRequestHeaders (ua : String)
    (configHeaders : List (String × String)) : List (String × String) :=
  requestHeaders ua configHeaders

/-- The headers of the request `post` issues for a `FormData` body: the
method-level headers are `{}` for `FormData`, spread together with
`config?.headers`, and `makeRequest` merges the result over `baseHeaders`. -/
def postFormDataRequestHeaders (ua : String)
    (configHeaders : List (String × String)) : List (String × String) :=
  requestHeaders ua (mergeHeaders [] configHeaders)

/-! ### AI service (AIService in the ai module) -/

/-- JS `x || d` for a numeric field of a decoded JSON object: absent (or
null) and `0` are falsy and fall back to the default. -/
def numOr (x : Option Int) (d : Int) : Int :=
  match x with
  | some v => if v == 0 then d else v
  | none => d

/-- JS `x || d` for a string field: absent and `""` fall back. -/
def strOr (x : Option String) (d : String) : String :=
  match x with
  | some s => if s == "" then d else s
  | none => d

/-- JS `x || d` for an array field: arrays are always truthy (even when
empty), so only absence falls back. -/
def listOr (x : Option (List String)) (d : List String) : List String :=
  match x with
  | some xs => xs
  | none => d

/-- The fields `parseGlowAnalysis` probes on the decoded AI completion;
`none` means absent (or of the wrong runtime type, which the source's
`typeof` / `Array.isArray` probes treat the same as absent). -/
structure ParsedGlow where
  overallScore : Option Int
  skinPotential : Option String
  skinQuality : Option String
  jawlineScore : Option Int
  skinTone : Option String
  skinType : Option String
  brightness : Option Int
  hydration : Option Int
  symmetryScore : Option Int
  symmetry : Option Int
  glowScore : Option Int
  improvements : Option (List String)
  recommendations : Option (List String)
  tips : Option (List String)
  aiTips : Option (List String)
deriving DecidableEq

structure GlowAnalysisResult where
  overallScore : Int
  skinPotential : String
  skinQuality : String
  jawlineScore : Int
  skinTone : String
  skinType : String
  brightness : Int
  hydration : Int
  symmetryScore : Int
  glowScore : Int
  improvements : List String
  recommendations : List String
  tips : List String
  aiTips : List String
deriving DecidableEq

/-- The `Math.random()` draws `getMockGlowAnalysis` performs; each draw is
used as `Math.floor(random * k)`, modelled as the parameter reduced
modulo `k`. -/
structure GlowRand where
  overall : Nat
  potential : Nat
  quality : Nat
  jawline : Nat
  tone : Nat
  skinTypeIdx : Nat
  bright : Nat
  hydra : Nat
  sym : Nat
deriving DecidableEq

def mockSkinTones : List String :=
  ["Warm Beige", "Cool Ivory", "Olive Medium", "Deep Caramel", "Golden Tan", "Porcelain Fair"]

def mockSkinTypes : List String :=
  ["Normal", "Dry", "Oily", "Combination", "Sensitive"]

def mockPotentials : List String := ["High", "Medium", "Low"]

def mockQualities : List String := ["Excellent", "Good", "Fair", "Needs Improvement"]

def mockAiTips : List String :=
  [ "Hydrate twice daily with hyaluronic acid serum for plumper skin"
  , "Use sunscreen every morning to prevent premature aging"
  , "Add more Omega-3s to your diet for improved skin elasticity"
  , "Try facial massage for 5 minutes daily to boost circulation"
  , "Get 7-8 hours of quality sleep for optimal skin recovery" ]

def mockImprovements : List String :=
  [ "Increase daily water intake to 8-10 glasses for better hydration"
  , "Incorporate vitamin C serum in morning routine for brighter skin"
  , "Use a gentle exfoliant 2x per week to improve texture"
  , "Apply a hydrating face mask weekly for deep moisture" ]

def mockRecommendations : List String :=
  [ "Morning: Gentle cleanser, Vitamin C serum, Moisturizer, SPF 30+"
  , "Evening: Double cleanse, Retinol (2x/week), Hydrating serum, Night cream"
  , "Weekly: Gentle exfoliation + Deep hydrating mask"
  , "Monthly: Professional facial or at-home enzyme treatment" ]

/-- `AIService.getMockGlowAnalysis`. -/
def getMockGlowAnalysis (r : GlowRand) : GlowAnalysisResult :=
  let overallScore : Int := ((r.overall % 30 : Nat) : Int) + 70
  { overallScore := overallScore
    skinPotential := mockPotentials.getD (r.potential % 3) ""
    skinQuality := mockQualities.getD (r.quality % 4) ""
    jawlineScore := ((r.jawline % 25 : Nat) : Int) + 70
    skinTone := mockSkinTones.getD (r.tone % 6) ""
    skinType := mockSkinTypes.getD (r.skinTypeIdx % 5) ""
    brightness := ((r.bright % 30 : Nat) : Int) + 65
    hydration := ((r.hydra % 40 : Nat) : Int) + 55
    symmetryScore := ((r.sym % 20 : Nat) : Int) + 75
    glowScore := overallScore
    improvements := mockImprovements
    recommendations := mockRecommendations
    tips := mockAiTips.take 3
    aiTips := mockAiTips }

/-- `AIService.parseGlowAnalysis`: `p = none` models `JSON.parse` throwing
on the completion string; otherwise the strict (comprehensive) schema is
probed first, then the legacy schema, then the mock fallback. -/
def parseGlowAnalysis (p : Option ParsedGlow) (r : GlowRand) : GlowAnalysisResult :=
  match p with
  | none => getMockGlowAnalysis r
  | some parsed =>
      match parsed.overallScore, parsed.skinTone, parsed.aiTips with
      | some sc, some tone, some ats =>
          { overallScore := sc
            skinPotential := strOr parsed.skinPotential "Medium"
            skinQuality := strOr parsed.skinQuality "Good"
            jawlineScore := numOr parsed.jawlineScore 75
            skinTone := tone
            skinType := strOr parsed.skinType "Normal"
            brightness := numOr parsed.brightness 75
            hydration := numOr parsed.hydration 70
            symmetryScore := numOr parsed.symmetryScore 85
            glowScore := sc
            improvements := listOr parsed.improvements []
            recommendations := listOr parsed.recommendations []
            tips := ats
            aiTips := ats }
      | _, _, _ =>
          match parsed.glowScore with
          | some g =>
              { overallScore := g
                skinPotential := "Medium"
                skinQuality := "Good"
                jawlineScore := 75
                skinTone := strOr parsed.skinTone "Medium"
                skinType := strOr parsed.skinType "Normal"
                brightness := numOr parsed.brightness 75
                hydration := numOr parsed.hydration 70
                symmetryScore := numOr parsed.symmetry 85
                glowScore := g
                improvements := listOr parsed.improvements []
                recommendations := listOr parsed.recommendations []
                tips := listOr parsed.tips (listOr parsed.improvements [])
                aiTips := listOr parsed.tips (listOr parsed.improvements []) }
          | none => getMockGlowAnalysis r

/-- Outcome of the surrounding pipeline for one public AI-service call:
`netFail` models any upload / vision / fetch / HTTP failure before a
completion string was obtained; `completion p` models a received completion
whose JSON decode outcome is `p`. -/
inductive AIOutcome (α : Type) where
  | netFail
  | completion (p : Option α)
deriving DecidableEq

/-- `AIService.analyzeGlow`: every failure before parsing degrades to the
mock; a received completion goes through `parseGlowAnalysis`. -/
def analyzeGlow (o : AIOutcome ParsedGlow) (r : GlowRand) : GlowAnalysisResult :=
  match o with
  | AIOutcome.netFail => getMockGlowAnalysis r
  | AIOutcome.completion p => parseGlowAnalysis p r

/-- Fields probed by `parseOutfitAnalysis`. -/
structure ParsedOutfit where
  outfitScore : Option Int
  colorMatchScore : Option Int
  styleScore : Option Int
  compatibleColors : Option (List String)
  tips : Option (List String)
  eventAppropriate : Option Bool
  seasonalMatch : Option Bool
deriving DecidableEq

structure OutfitAnalysisResult where
  outfitScore : Int
  colorMatchScore : Int
  styleScore : Int
  compatibleColors : List String
  tips : List String
  eventAppropriate : Bool
  seasonalMatch : Bool
deriving DecidableEq

/-- The random draws `getMockOutfitAnalysis` performs (the two boolean
draws model `Math.random() > 0.3` and `Math.random() > 0.2`). -/
structure OutfitRand where
  outfit : Nat
  color : Nat
  style : Nat
  eventOk : Bool
  seasonOk : Bool
deriving DecidableEq

def defaultCompatibleColors : List String := ["#FF6B98", "#9D71E8", "#4CAF50"]

def mockCompatibleColors : List String :=
  ["#FF6B98", "#9D71E8", "#4CAF50", "#2196F3", "#FFD166"]

def mockOutfitTips : List String :=
  [ "Try adding a statement accessory to elevate this look"
  , "This color palette works well with your skin tone"
  , "Consider a different shoe style for better proportion"
  , "A structured blazer would add sophistication" ]

/-- `AIService.getMockOutfitAnalysis`. -/
def getMockOutfitAnalysis (r : OutfitRand) : OutfitAnalysisResult :=
  { outfitScore := ((r.outfit % 30 : Nat) : Int) + 70
    colorMatchScore := ((r.color % 30 : Nat) : Int) + 70
    styleScore := ((r.style % 30 : Nat) : Int) + 70
    compatibleColors := mockCompatibleColors
    tips := mockOutfitTips
    eventAppropriate := r.eventOk
    seasonalMatch := r.seasonOk }

/-- `AIService.parseOutfitAnalysis`. -/
def parseOutfitAnalysis (p : Option ParsedOutfit) (r : OutfitRand) : OutfitAnalysisResult :=
  match p with
  | none => getMockOutfitAnalysis r
  | some parsed =>
      match parsed.outfitScore, parsed.tips with
      | some sc, some ts =>
          { outfitScore := sc
            colorMatchScore := numOr parsed.colorMatchScore 75
            styleScore := numOr parsed.styleScore 75
            compatibleColors := listOr parsed.compatibleColors defaultCompatibleColors
            tips := ts
            eventAppropriate := !(parsed.eventAppropriate == some false)
            seasonalMatch := !(parsed.seasonalMatch == some false) }
      | _, _ => getMockOutfitAnalysis r

/-- `AIService.analyzeOutfit`. -/
def analyzeOutfit (o : AIOutcome ParsedOutfit) (r : OutfitRand) : OutfitAnalysisResult :=
  match o with
  | AIOutcome.netFail => getMockOutfitAnalysis r
  | AIOutcome.completion p => parseOutfitAnalysis p r

/-! ### Coaching plans -/

inductive TaskType where
  | skincare
  | hydration
  | sleep
  | exercise
  | nutrition
deriving DecidableEq

structure DailyTask where
  id : String
  day : Nat
  title : String
  description : String
  type : TaskType
  completed : Bool
deriving DecidableEq

structure CoachingPlan where
  id : String
  goal : String
  duration : Int
  dailyTasks : List DailyTask
  tips : List String
  expectedResults : List String
deriving DecidableEq

/-- The tasks `getMockCoachingPlan` pushes for one day: three base tasks,
plus a fourth exercise task on every day divisible by 3. -/
def mkDailyTasks (day : Nat) : List DailyTask :=
  let base : List DailyTask :=
    [ { id := "task-" ++ toString day ++ "-1", day := day
        title := "Morning Skincare Routine"
        description := "Complete your morning skincare routine with cleanser, serum, and SPF"
        type := TaskType.skincare, completed := false }
    , { id := "task-" ++ toString day ++ "-2", day := day
        title := "Hydration Goal"
        description := "Drink at least 8 glasses of water throughout the day"
        type := TaskType.hydration, completed := false }
    , { id := "task-" ++ toString day ++ "-3", day := day
        title := "Beauty Sleep"
        description := "Get 7-8 hours of quality sleep for skin recovery"
        type := TaskType.sleep, completed := false } ]
  if day % 3 == 0 then
    base ++
      [ { id := "task-" ++ toString day ++ "-4", day := day
          title := "Light Exercise"
          description := "20 minutes of light exercise to boost circulation"
          type := TaskType.exercise, completed := false } ]
  else base

/-- The `for (let day = 1; day <= n; day++) tasks.push(...)` accumulation. -/
def buildMockTasks : Nat → List DailyTask
  | 0 => []
  | n + 1 => buildMockTasks n ++ mkDailyTasks (n + 1)

def mockPlanTips : List String :=
  [ "Consistency is key - stick to your routine daily"
  , "Take progress photos weekly to track improvements"
  , "Listen to your skin and adjust products if needed"
  , "Stay hydrated and eat a balanced diet" ]

def mockPlanExpectedResults : List String :=
  [ "Improved skin texture and hydration"
  , "More even skin tone"
  , "Reduced appearance of fine lines"
  , "Overall healthier, glowing complexion" ]

/-- `AIService.getMockCoachingPlan`; `planTime` is the `Date.now()` value
used in the generated id. -/
def getMockCoachingPlan (goal : String) (planTime : Int) : CoachingPlan :=
  { id := "plan-" ++ toString planTime
    goal := goal
    duration := 30
    dailyTasks := buildMockTasks 30
    tips := mockPlanTips
    expectedResults := mockPlanExpectedResults }

/-- Fields probed by `parseCoachingPlan`. -/
structure ParsedCoach where
  duration : Option Int
  dailyTasks : Option (List DailyTask)
  tips : Option (List String)
  expectedResults : Option (List String)
deriving DecidableEq

/-- `AIService.parseCoachingPlan`. -/
def parseCoachingPlan (p : Option ParsedCoach) (goal : String) (planTime : Int) :
    CoachingPlan :=
  match p with
  | none => getMockCoachingPlan goal planTime
  | some parsed =>
      match parsed.dailyTasks, parsed.tips with
      | some dts, some ts =>
          { id := "plan-" ++ toString planTime
            goal := goal
            duration := numOr parsed.duration 30
            dailyTasks := dts
            tips := ts
            expectedResults := listOr parsed.expectedResults [] }
      | _, _ => getMockCoachingPlan goal planTime

/-- `AIService.generateCoachingPlan` (`currentGlowScore` only feeds the
prompt; it does not influence the fallback). -/
def generateCoachingPlan (o : AIOutcome ParsedCoach) (goal : String)
    (currentGlowScore : Int) (planTime : Int) : CoachingPlan :=
  match o, currentGlowScore with
  | AIOutcome.netFail, _ => getMockCoachingPlan goal planTime
  | AIOutcome.completion p, _ => parseCoachingPlan p goal planTime

/-! ### Fallback-outcome predicates -/

/-- The completions on which `parseGlowAnalysis` rejects both schemas and
degrades to the mock. -/
def glowParseRejected (p : Option ParsedGlow) : Prop :=
  match p with
  | none => True
  | some parsed =>
      (parsed.overallScore = none ∨ parsed.skinTone = none ∨ parsed.aiTips = none) ∧
      parsed.glowScore = none

/-- Outcomes on which `analyzeGlow` returns the mock fallback. -/
def glowFallbackOutcome (o : AIOutcome ParsedGlow) : Prop :=
  match o with
  | AIOutcome.netFail => True
  | AIOutcome.completion p => glowParseRejected p

/-- The completions on which `parseOutfitAnalysis` degrades to the mock. -/
def outfitParseRejected (p : Option ParsedOutfit) : Prop :=
  match p with
  | none => True
  | some parsed => parsed.outfitScore = none ∨ parsed.tips = none

/-- Outcomes on which `analyzeOutfit` returns the mock fallback. -/
def outfitFallbackOutcome (o : AIOutcome ParsedOutfit) : Prop :=
  match o with
  | AIOutcome.netFail => True
  | AIOutcome.completion p => outfitParseRejected p

/-- Outcomes on which `generateCoachingPlan` returns the mock fallback. -/
def coachFallbackOutcome (o : AIOutcome ParsedCoach) : Prop :=
  match o with
  | AIOutcome.netFail => True
  | AIOutcome.completion none => True
  | AIOutcome.completion (some parsed) =>
      parsed.dailyTasks = none ∨ parsed.tips = none

/-! ## Theorems -/

/-- Concrete store for the C1 counterexample: a persisted paid record that
expired at time 100 coexisting with a trial record valid until time 200. -/
def c1Store : Store :=
  { sub := some { isActive := true, plan := some premiumMonthly, expiresAt := some 100 }
    trial := some { planId := "premium_monthly", startedAt := 0, expiresAt := 200, used := true } }

/-- C1 counterexample: at time 150 the trial record's expiry (200) is in the
future, so the claim demands `isActive = true`, yet `getSubscriptionStatus`
returns `isActive = false` — the expired paid record's `expiresAt` check
overrides the active trial, and the stored `isActive` boolean (not a
recomputation) is what suppressed the trial branch. -/
theorem read_isActive_false_despite_active_trial :
    (getSubscriptionStatus c1Store 150).isActive = false ∧ (150 : Int) < 200 := by
  constructor
  · rfl
  · decide

/-- C1 amended: `getSubscriptionStatus` returns `isActive = true` iff
(the stored paid record's `isActive` flag is true OR the trial record's
expiry is in the future) AND the paid record's `expiresAt`, when set, is
strictly in the future. In particular the stored boolean is trusted, and an
expired paid record forces `isActive = false` even while a trial is
active. -/
theorem getSubscriptionStatus_isActive_eq (st : Store) (now : Int) :
    (getSubscriptionStatus st now).isActive =
      ((storedActiveFlag st || trialIsActive st now) && !paidExpired st now) := by
  obtain ⟨sub, trial⟩ := st
  cases sub with
  | none =>
      cases trial with
      | none =>
          simp [getSubscriptionStatus, storedActiveFlag, trialIsActive, paidExpired]
      | some t =>
          by_cases h : now < t.expiresAt <;>
            simp [getSubscriptionStatus, storedActiveFlag, trialIsActive, paidExpired, h]
  | some r0 =>
      obtain ⟨ia, pl, ea⟩ := r0
      cases ea with
      | none =>
          cases trial with
          | none =>
              simp [getSubscriptionStatus, storedActiveFlag, trialIsActive, paidExpired]
          | some t =>
              by_cases h : now < t.expiresAt <;> cases ia <;>
                simp [getSubscriptionStatus, storedActiveFlag, trialIsActive, paidExpired, h]
      | some e =>
          cases trial with
          | none =>
              by_cases he : e ≤ now <;> cases ia <;>
                simp [getSubscriptionStatus, storedActiveFlag, trialIsActive, paidExpired, he]
          | some t =>
              by_cases h : now < t.expiresAt <;> by_cases he : e ≤ now <;> cases ia <;>
                simp [getSubscriptionStatus, storedActiveFlag, trialIsActive, paidExpired, h, he]

/-- C7: once a trial record with `used = true` is persisted, every
`startFreeTrial` call — at any time, with any plan id, whatever the billing
outcome — fails with the already-used error and leaves the store unchanged;
and neither `cancelSubscription` nor `subscribeToPlan` ever touches the
trial record (`getSubscriptionStatus` is a pure read in this model and
cannot write at all). -/
theorem trial_used_is_permanent
    (D : DateOps) (st : Store) (now : Int) (apiOk : Bool) (planId : String)
    (t : StoredTrial) (ht : st.trial = some t) (hused : t.used = true) :
    (startFreeTrial D st now apiOk planId).1.success = false ∧
    (startFreeTrial D st now apiOk planId).1.error = some alreadyUsedError ∧
    (startFreeTrial D st now apiOk planId).2 = st ∧
    (cancelSubscription st apiOk).2.trial = st.trial ∧
    (subscribeToPlan D st now apiOk planId).2.trial = st.trial := by
  refine ⟨?_, ?_, ?_, ?_, ?_⟩
  · simp [startFreeTrial, ht, hused]
  · simp [startFreeTrial, ht, hused]
  · simp [startFreeTrial, ht, hused]
  · simp only [cancelSubscription]
    split <;> rfl
  · simp only [subscribeToPlan]
    split
    · rfl
    · split <;> rfl

/-- Concrete trial record for the C7 witness. -/
def usedTrialRecord : StoredTrial :=
  { planId := "premium_monthly", startedAt := 0, expiresAt := 604800000, used := true }

/-- Concrete store holding a consumed trial, for the C7 witness. -/
def usedTrialStore : Store := { sub := none, trial := some usedTrialRecord }

/-- Witness for C7 at a concrete input. -/
theorem trial_used_is_permanent_witness :
    usedTrialStore.trial = some usedTrialRecord ∧ usedTrialRecord.used = true ∧
    (startFreeTrial fixedDateOps usedTrialStore 0 true "premium_monthly").1.success = false :=
  ⟨rfl, rfl,
    (trial_used_is_permanent fixedDateOps usedTrialStore 0 true "premium_monthly"
      usedTrialRecord rfl rfl).1⟩

/-- C9: a successful `subscribeToPlan "premium_monthly"` followed by a read
at any time `r` before the new expiry yields `isActive = true`, the
`premium_monthly` catalog entry as the plan, and `expiresAt` exactly one
calendar month (per the date library's month arithmetic) after the
subscribe time. -/
theorem subscribe_then_read_roundtrip
    (D : DateOps) (st : Store) (now r : Int) (h : r < D.addMonth now) :
    (subscribeToPlan D st now true "premium_monthly").1.success = true ∧
    (getSubscriptionStatus (subscribeToPlan D st now true "premium_monthly").2 r).isActive = true ∧
    (getSubscriptionStatus (subscribeToPlan D st now true "premium_monthly").2 r).plan
      = some premiumMonthly ∧
    (getSubscriptionStatus (subscribeToPlan D st now true "premium_monthly").2 r).expiresAt
      = some (D.addMonth now) := by
  have hfind : plans.find? (fun p => p.id == "premium_monthly") = some premiumMonthly := by rfl
  have hn : ¬ (D.addMonth now ≤ r) := not_le.mpr h
  cases htr : st.trial <;>
    simp [subscribeToPlan, getSubscriptionStatus, hfind, hn, htr, premiumMonthly]

/-- Store with no persisted records, used by witnesses. -/
def emptyStore : Store := { sub := none, trial := none }

/-- Witness for C9 at a concrete input. -/
theorem subscribe_then_read_roundtrip_witness :
    (0 : Int) < fixedDateOps.addMonth 0 ∧
    (subscribeToPlan fixedDateOps emptyStore 0 true "premium_monthly").1.success = true :=
  ⟨by norm_num [fixedDateOps],
    (subscribe_then_read_roundtrip fixedDateOps emptyStore 0 0
      (by norm_num [fixedDateOps])).1⟩

/-- C10: when the billing collaborator throws (modelled by `apiOk = false`),
`startFreeTrial` and `subscribeToPlan` return a typed failure result (no
exception escapes: both are total functions into `OpResult × Store`) and
write nothing — the store after the call is exactly the store before. -/
theorem billing_failure_leaves_store_untouched
    (D : DateOps) (st : Store) (now : Int) (planId : String) :
    (startFreeTrial D st now false planId).1.success = false ∧
    (startFreeTrial D st now false planId).1.error.isSome = true ∧
    (startFreeTrial D st now false planId).2 = st ∧
    (subscribeToPlan D st now false planId).1.success = false ∧
    (subscribeToPlan D st now false planId).1.error.isSome = true ∧
    (subscribeToPlan D st now false planId).2 = st := by
  refine ⟨?_, ?_, ?_, ?_, ?_, ?_⟩ <;>
    · simp only [startFreeTrial, subscribeToPlan, Bool.false_eq_true, if_false]
      repeat first
        | rfl
        | (split <;> try rfl)

/-- Induction workhorse for the retry loop: if no attempt in the window
returns an `ok` response, the loop runs all `remaining + 1` attempts,
sleeps `retryDelay * 2 ^ (attempt + i)` after the `i`-th failed attempt of
the window (whether the failure took the try path or the catch path), and
propagates the catch-rebuilt classification of the last outcome. -/
theorem makeRequestGo_all_fail (f : Nat → FetchOutcome) (retryDelay : Nat) :
    ∀ remaining attempt : Nat,
      (∀ n, n ≤ remaining → f (attempt + n) ≠ FetchOutcome.success) →
      (makeRequestGo f retryDelay remaining attempt).attemptsMade = remaining + 1 ∧
      (makeRequestGo f retryDelay remaining attempt).delays.length = remaining ∧
      (∀ i, i < remaining →
        (makeRequestGo f retryDelay remaining attempt).delays[i]? =
          some (retryDelay * 2 ^ (attempt + i))) ∧
      (makeRequestGo f retryDelay remaining attempt).result =
        some (caughtError (f (attempt + remaining))) := by
  intro remaining
  induction remaining with
  | zero =>
      intro attempt h
      have h0 : f (attempt + 0) ≠ FetchOutcome.success := h 0 (Nat.le_refl 0)
      rw [Nat.add_zero] at h0
      refine ⟨?_, ?_, ?_, ?_⟩
      · cases hf : f attempt <;> simp_all [makeRequestGo]
      · cases hf : f attempt <;> simp_all [makeRequestGo]
      · intro i hi
        exact absurd hi (Nat.not_lt_zero i)
      · rw [Nat.add_zero]
        cases hf : f attempt <;> simp_all [makeRequestGo]
  | succ m ih =>
      intro attempt h
      have h0 : f (attempt + 0) ≠ FetchOutcome.success := h 0 (Nat.zero_le _)
      rw [Nat.add_zero] at h0
      have hshift : ∀ n, n ≤ m → f (attempt + 1 + n) ≠ FetchOutcome.success := by
        intro n hn
        have h2 := h (n + 1) (Nat.succ_le_succ hn)
        have he : attempt + (n + 1) = attempt + 1 + n := by omega
        rwa [he] at h2
      obtain ⟨ha, hl, hd, hr⟩ := ih (attempt + 1) hshift
      have hgo : makeRequestGo f retryDelay (m + 1) attempt =
          { attemptsMade := (makeRequestGo f retryDelay m (attempt + 1)).attemptsMade + 1
            delays := retryDelay * 2 ^ attempt ::
              (makeRequestGo f retryDelay m (attempt + 1)).delays
            result := (makeRequestGo f retryDelay m (attempt + 1)).result } := by
        cases hf : f attempt with
        | success => exact absurd hf h0
        | httpError s text =>
            simp only [makeRequestGo, hf]
            split <;> simp [caughtError, createError, isRetryableError]
        | fetchFailure timedOut =>
            simp [makeRequestGo, hf, caughtError, createError, isRetryableError]
      refine ⟨?_, ?_, ?_, ?_⟩
      · rw [hgo]
        simpa using ha
      · rw [hgo]
        simpa using hl
      · intro i hi
        rw [hgo]
        cases i with
        | zero => simp
        | succ j =>
            have hj : j < m := Nat.lt_of_succ_lt_succ hi
            have he : attempt + (j + 1) = attempt + 1 + j := by omega
            simpa [he] using hd j hj
      · rw [hgo]
        have he : attempt + (m + 1) = attempt + 1 + m := by omega
        simpa [he] using hr

/-- Attempt outcomes that always answer 503, used in concrete inputs. -/
def allServerErrors : Nat → FetchOutcome :=
  fun _ => FetchOutcome.httpError 503 "Service Unavailable"

/-- C4 counterexample: with every attempt answering 503 (retries = 2), the
error `makeRequest` propagates is the catch-rebuilt status-less retryable
`NETWORK_ERROR` — NOT the last attempt's status-classified error
`createError (some 503) none`. The final attempt's `throw error` inside the
`try` is caught by the loop's own `catch`, which discards the HTTP
status before rethrowing. -/
theorem server_error_final_classification_lost :
    (makeRequest allServerErrors 2 100).result
      = some (createError none (some "NETWORK_ERROR")) ∧
    some (createError none (some "NETWORK_ERROR"))
      ≠ some (createError (some 503) none) := by
  constructor
  · rfl
  · decide

/-- C4 amended: when every attempt yields an HTTP response with status
`≥ 500`, `makeRequest` makes exactly `retries + 1` attempts and the delay
slept between attempt `n` and attempt `n + 1` is exactly
`retryDelay * 2 ^ n`; but the error propagated is the final attempt's error
rethrown through the loop's own catch clause — a status-less, retryable,
code `NETWORK_ERROR` classification — not the last HTTP-status-classified
error. -/
theorem server_errors_exhaust_retries (f : Nat → FetchOutcome)
    (retries retryDelay : Nat)
    (h : ∀ n, n ≤ retries → isServerError (f n)) :
    (makeRequest f retries retryDelay).attemptsMade = retries + 1 ∧
    (makeRequest f retries retryDelay).delays.length = retries ∧
    (∀ i, i < retries →
      (makeRequest f retries retryDelay).delays[i]? = some (retryDelay * 2 ^ i)) ∧
    (makeRequest f retries retryDelay).result
      = some (createError none (some "NETWORK_ERROR")) ∧
    (createError none (some "NETWORK_ERROR")).status = none ∧
    (createError none (some "NETWORK_ERROR")).isRetryable = true := by
  have h0 : ∀ n, n ≤ retries → f (0 + n) ≠ FetchOutcome.success := by
    intro n hn
    rw [Nat.zero_add]
    obtain ⟨s, text, _, hf⟩ := h n hn
    rw [hf]
    intro hc
    cases hc
  obtain ⟨ha, hl, hd, hr⟩ := makeRequestGo_all_fail f retryDelay retries 0 h0
  refine ⟨ha, hl, ?_, ?_, rfl, rfl⟩
  · intro i hi
    simpa using hd i hi
  · obtain ⟨s, text, _, hf⟩ := h retries (Nat.le_refl retries)
    simp only [makeRequest] at hr ⊢
    rw [hr, Nat.zero_add, hf]
    rfl

/-- Witness for the amended C4 at a concrete input. -/
theorem server_errors_exhaust_retries_witness :
    (∀ n, n ≤ 3 → isServerError (allServerErrors n)) ∧
    (makeRequest allServerErrors 3 1000).attemptsMade = 4 :=
  ⟨fun _ _ => ⟨503, "Service Unavailable", by omega, rfl⟩,
    (server_errors_exhaust_retries allServerErrors 3 1000
      (fun _ _ => ⟨503, "Service Unavailable", by omega, rfl⟩)).1⟩

/-- Attempt outcomes that always answer 404, used in concrete inputs. -/
def notFoundOutcome : Nat → FetchOutcome :=
  fun _ => FetchOutcome.httpError 404 "Not Found"

/-- C5 (code bug): `isRetryableError` classifies 404 as non-retryable — the
documented intent is a single attempt — but the `!response.ok` throw lands
in the loop's own catch, which rebuilds the error without the status, finds
it retryable via the `!status` branch, and retries to exhaustion. With every
attempt answering 404 and `retries = 3`, the code makes 4 attempts with the
full backoff schedule and propagates the status-less retryable error, not
the fatal classification. -/
theorem notFound_retried_to_exhaustion :
    isRetryableError (some 404) none = false ∧
    (makeRequest notFoundOutcome 3 1000).attemptsMade = 4 ∧
    (makeRequest notFoundOutcome 3 1000).delays = [1000, 2000, 4000] ∧
    (makeRequest notFoundOutcome 3 1000).result
      = some (createError none (some "NETWORK_ERROR")) := by
  refine ⟨rfl, rfl, rfl, rfl⟩

/-- C6 (code bug): the upload paths do NOT omit the default `Content-Type`
header. `uploadFile` forwards `{ ...config?.headers }` and `post` forwards
`{ ...{}, ...config?.headers }`, but `makeRequest` then spreads these OVER
`baseHeaders`, so with no config headers the outgoing request still carries
`Content-Type: application/json` from `baseHeaders` — contradicting the
source's own `Don't set Content-Type for FormData` comment and clobbering
the multipart boundary. -/
theorem uploadFile_sends_default_content_type (ua : String) :
    lookupHeader (uploadFileRequestHeaders ua []) "Content-Type"
      = some "application/json" ∧
    lookupHeader (postFormDataRequestHeaders ua []) "Content-Type"
      = some "application/json" := by
  constructor <;> rfl

/-- On a rejected completion, `parseGlowAnalysis` returns the mock. -/
theorem parseGlowAnalysis_rejected (p : Option ParsedGlow) (r : GlowRand)
    (h : glowParseRejected p) : parseGlowAnalysis p r = getMockGlowAnalysis r := by
  cases p with
  | none => rfl
  | some parsed =>
      obtain ⟨h1, h2⟩ := h
      cases hos : parsed.overallScore <;> cases hst : parsed.skinTone <;>
        cases hat : parsed.aiTips <;> simp_all [parseGlowAnalysis]

/-- On a rejected completion, `parseOutfitAnalysis` returns the mock. -/
theorem parseOutfitAnalysis_rejected (p : Option ParsedOutfit) (r : OutfitRand)
    (h : outfitParseRejected p) : parseOutfitAnalysis p r = getMockOutfitAnalysis r := by
  cases p with
  | none => rfl
  | some parsed =>
      have h2 : parsed.outfitScore = none ∨ parsed.tips = none := h
      cases hos : parsed.outfitScore <;> cases hts : parsed.tips <;>
        simp_all [parseOutfitAnalysis]

/-- C2: on every malformed / unparseable / schema-rejected completion (and
on every earlier network failure), `analyzeGlow` and `analyzeOutfit` return
the mock fallback — both are total functions, so no error reaches the
caller — and that fallback has every numeric score in `[0, 100]` and
non-empty tip lists. -/
theorem fallback_results_in_range
    (og : AIOutcome ParsedGlow) (oo : AIOutcome ParsedOutfit)
    (rg : GlowRand) (ro : OutfitRand)
    (hg : glowFallbackOutcome og) (ho : outfitFallbackOutcome oo) :
    (0 ≤ (analyzeGlow og rg).overallScore ∧ (analyzeGlow og rg).overallScore ≤ 100) ∧
    (0 ≤ (analyzeGlow og rg).jawlineScore ∧ (analyzeGlow og rg).jawlineScore ≤ 100) ∧
    (0 ≤ (analyzeGlow og rg).brightness ∧ (analyzeGlow og rg).brightness ≤ 100) ∧
    (0 ≤ (analyzeGlow og rg).hydration ∧ (analyzeGlow og rg).hydration ≤ 100) ∧
    (0 ≤ (analyzeGlow og rg).symmetryScore ∧ (analyzeGlow og rg).symmetryScore ≤ 100) ∧
    (0 ≤ (analyzeGlow og rg).glowScore ∧ (analyzeGlow og rg).glowScore ≤ 100) ∧
    (analyzeGlow og rg).tips ≠ [] ∧ (analyzeGlow og rg).aiTips ≠ [] ∧
    (analyzeGlow og rg).improvements ≠ [] ∧ (analyzeGlow og rg).recommendations ≠ [] ∧
    (0 ≤ (analyzeOutfit oo ro).outfitScore ∧ (analyzeOutfit oo ro).outfitScore ≤ 100) ∧
    (0 ≤ (analyzeOutfit oo ro).colorMatchScore ∧
      (analyzeOutfit oo ro).colorMatchScore ≤ 100) ∧
    (0 ≤ (analyzeOutfit oo ro).styleScore ∧ (analyzeOutfit oo ro).styleScore ≤ 100) ∧
    (analyzeOutfit oo ro).tips ≠ [] := by
  have hmg : analyzeGlow og rg = getMockGlowAnalysis rg := by
    cases og with
    | netFail => rfl
    | completion p => exact parseGlowAnalysis_rejected p rg hg
  have hmo : analyzeOutfit oo ro = getMockOutfitAnalysis ro := by
    cases oo with
    | netFail => rfl
    | completion p => exact parseOutfitAnalysis_rejected p ro ho
  rw [hmg, hmo]
  simp only [getMockGlowAnalysis, getMockOutfitAnalysis]
  refine ⟨⟨?_, ?_⟩, ⟨?_, ?_⟩, ⟨?_, ?_⟩, ⟨?_, ?_⟩, ⟨?_, ?_⟩, ⟨?_, ?_⟩,
    ?_, ?_, ?_, ?_, ⟨?_, ?_⟩, ⟨?_, ?_⟩, ⟨?_, ?_⟩, ?_⟩ <;>
    first
      | omega
      | decide

/-- All-zero random draws, used in concrete inputs. -/
def zeroGlowRand : GlowRand :=
  { overall := 0, potential := 0, quality := 0, jawline := 0, tone := 0
    skinTypeIdx := 0, bright := 0, hydra := 0, sym := 0 }

/-- All-zero random draws for the outfit mock. -/
def zeroOutfitRand : OutfitRand :=
  { outfit := 0, color := 0, style := 0, eventOk := false, seasonOk := false }

/-- Witness for C2 at a concrete input (a network failure outcome). -/
theorem fallback_results_in_range_witness :
    glowFallbackOutcome (AIOutcome.netFail : AIOutcome ParsedGlow) ∧
    outfitFallbackOutcome (AIOutcome.netFail : AIOutcome ParsedOutfit) ∧
    (0 ≤ (analyzeGlow (AIOutcome.netFail : AIOutcome ParsedGlow) zeroGlowRand).overallScore ∧
      (analyzeGlow (AIOutcome.netFail : AIOutcome ParsedGlow) zeroGlowRand).overallScore ≤ 100) :=
  ⟨True.intro, True.intro,
    (fallback_results_in_range (AIOutcome.netFail : AIOutcome ParsedGlow)
      (AIOutcome.netFail : AIOutcome ParsedOutfit) zeroGlowRand zeroOutfitRand
      True.intro True.intro).1⟩

/-- A completion the strict glow schema accepts but whose `overallScore` is
150 — outside `[0, 100]`. -/
def oversizedGlow : ParsedGlow :=
  { overallScore := some 150, skinPotential := none, skinQuality := none
    jawlineScore := none, skinTone := some "Warm Beige", skinType := none
    brightness := none, hydration := none, symmetryScore := none, symmetry := none
    glowScore := none, improvements := none, recommendations := none, tips := none
    aiTips := some ["Use sunscreen every morning"] }

/-- C3 counterexample: an accepted completion with `overallScore: 150` is
returned verbatim — `parseGlowAnalysis` performs no clamping, so the
returned score exceeds 100. -/
theorem accepted_glow_score_not_clamped :
    (parseGlowAnalysis (some oversizedGlow) zeroGlowRand).overallScore = 150 ∧
    ¬ ((parseGlowAnalysis (some oversizedGlow) zeroGlowRand).overallScore ≤ 100) := by
  constructor
  · rfl
  · decide

/-- A completion the outfit schema accepts, with an out-of-range score and a
present-but-empty tips array. -/
def oversizedOutfit : ParsedOutfit :=
  { outfitScore := some 120, colorMatchScore := none, styleScore := none
    compatibleColors := none, tips := some [], eventAppropriate := none
    seasonalMatch := none }

/-- C3 amended: no clamping to `[0, 100]` happens anywhere. On an accepted
strict-schema decode, `overallScore` / `glowScore` / `outfitScore` are
returned exactly as parsed (however far out of range); each remaining
numeric score is returned as parsed when present and non-zero, and replaced
by its fixed default (jawline 75, brightness 75, hydration 70, symmetry 85,
colorMatch 75, style 75 — JS `||` treats 0 and absent as falsy) — never
clamped; tip lists are taken verbatim (possibly empty); and `improvements` /
`recommendations` / `compatibleColors` default to a constant only when
absent. -/
theorem accepted_scores_passthrough
    (pg : ParsedGlow) (rg : GlowRand) (n : Int) (tone : String) (ats : List String)
    (po : ParsedOutfit) (ro : OutfitRand) (m : Int) (ots : List String)
    (h1 : pg.overallScore = some n) (h2 : pg.skinTone = some tone)
    (h3 : pg.aiTips = some ats) (h4 : po.outfitScore = some m)
    (h5 : po.tips = some ots) :
    (parseGlowAnalysis (some pg) rg).overallScore = n ∧
    (parseGlowAnalysis (some pg) rg).glowScore = n ∧
    (parseGlowAnalysis (some pg) rg).jawlineScore = numOr pg.jawlineScore 75 ∧
    (parseGlowAnalysis (some pg) rg).brightness = numOr pg.brightness 75 ∧
    (parseGlowAnalysis (some pg) rg).hydration = numOr pg.hydration 70 ∧
    (parseGlowAnalysis (some pg) rg).symmetryScore = numOr pg.symmetryScore 85 ∧
    (parseGlowAnalysis (some pg) rg).tips = ats ∧
    (parseGlowAnalysis (some pg) rg).improvements = listOr pg.improvements [] ∧
    (parseGlowAnalysis (some pg) rg).recommendations = listOr pg.recommendations [] ∧
    (parseOutfitAnalysis (some po) ro).outfitScore = m ∧
    (parseOutfitAnalysis (some po) ro).colorMatchScore
      = numOr po.colorMatchScore 75 ∧
    (parseOutfitAnalysis (some po) ro).styleScore = numOr po.styleScore 75 ∧
    (parseOutfitAnalysis (some po) ro).tips = ots ∧
    (parseOutfitAnalysis (some po) ro).compatibleColors
      = listOr po.compatibleColors defaultCompatibleColors := by
  simp [parseGlowAnalysis, parseOutfitAnalysis, h1, h2, h3, h4, h5]

/-- Witness for the amended C3 at a concrete input. -/
theorem accepted_scores_passthrough_witness :
    oversizedGlow.overallScore = some 150 ∧ oversizedOutfit.outfitScore = some 120 ∧
    (parseGlowAnalysis (some oversizedGlow) zeroGlowRand).overallScore = 150 :=
  ⟨rfl, rfl,
    (accepted_scores_passthrough oversizedGlow zeroGlowRand 150 "Warm Beige"
      ["Use sunscreen every morning"] oversizedOutfit zeroOutfitRand 120 []
      rfl rfl rfl rfl rfl).1⟩

/-- C8: on every fallback outcome, `generateCoachingPlan` yields a plan of
duration 30 whose tasks cover exactly the days 1..30: every task's day lies
in 1..30, and each day in 1..30 carries exactly 4 tasks when divisible by 3
(of which exactly one is an exercise task) and exactly 3 tasks (no exercise
task) otherwise — hence at least 3 tasks every day. -/
theorem fallback_plan_covers_thirty_days
    (o : AIOutcome ParsedCoach) (goal : String) (score planTime : Int)
    (h : coachFallbackOutcome o) :
    (generateCoachingPlan o goal score planTime).duration = 30 ∧
    (∀ t ∈ (generateCoachingPlan o goal score planTime).dailyTasks,
      1 ≤ t.day ∧ t.day ≤ 30) ∧
    (∀ d, d < 31 → 1 ≤ d →
      ((generateCoachingPlan o goal score planTime).dailyTasks.countP
          (fun t => t.day == d) = if d % 3 = 0 then 4 else 3) ∧
      3 ≤ (generateCoachingPlan o goal score planTime).dailyTasks.countP
          (fun t => t.day == d) ∧
      ((generateCoachingPlan o goal score planTime).dailyTasks.countP
          (fun t => t.day == d && t.type == TaskType.exercise)
          = if d % 3 = 0 then 1 else 0)) := by
  have hm : generateCoachingPlan o goal score planTime
      = getMockCoachingPlan goal planTime := by
    cases o with
    | netFail => rfl
    | completion p =>
        cases p with
        | none => rfl
        | some parsed =>
            have h2 : parsed.dailyTasks = none ∨ parsed.tips = none := h
            cases hdt : parsed.dailyTasks <;> cases hts : parsed.tips <;>
              simp_all [generateCoachingPlan, parseCoachingPlan]
  rw [hm]
  refine ⟨rfl, ?_, ?_⟩
  · show ∀ t ∈ buildMockTasks 30, 1 ≤ t.day ∧ t.day ≤ 30
    decide
  · show ∀ d, d < 31 → 1 ≤ d →
      ((buildMockTasks 30).countP (fun t => t.day == d) = if d % 3 = 0 then 4 else 3) ∧
      3 ≤ (buildMockTasks 30).countP (fun t => t.day == d) ∧
      ((buildMockTasks 30).countP (fun t => t.day == d && t.type == TaskType.exercise)
        = if d % 3 = 0 then 1 else 0)
    decide

/-- Witness for C8 at a concrete input. -/
theorem fallback_plan_covers_thirty_days_witness :
    coachFallbackOutcome (AIOutcome.netFail : AIOutcome ParsedCoach) ∧
    (generateCoachingPlan (AIOutcome.netFail : AIOutcome ParsedCoach)
      "clear skin" 72 0).duration = 30 :=
  ⟨True.intro,
    (fallback_plan_covers_thirty_days (AIOutcome.netFail : AIOutcome ParsedCoach)
      "clear skin" 72 0 True.intro).1⟩

end GlowCheck
